import Mathlib

/-!
A verification model of the web-epub-generator EPUB document model and
serializer (files epub/__init__.py and epub/meta.py of the repository).
Python classes become Lean structures, bs4 XML trees become the inductive
XNode, and the methods that build documents become pure functions.
Behaviour the claims depend on, such as bs4 attribute insertion order,
Python string formatting and zipfile compression methods, is modelled
explicitly.
-/

namespace EpubModel

/-- A bs4 attribute value.  bs4 stores an assignment of None as a valueless
attribute, so values are optional. -/
abbrev AttrVal := Option String

/-- A bs4 XML tree: elements with ordered attributes and children, and
navigable strings.  Attribute order is insertion order (Python dicts keep
insertion order). -/
inductive XNode where
  | elem (name : String) (attrs : List (String × AttrVal)) (children : List XNode)
  | text (s : String)

/-- Tag name of a node (empty for a navigable string). -/
def XNode.nameOf : XNode → String
  | XNode.elem n _ _ => n
  | XNode.text _ => ""

/-- Attribute list of a node. -/
def XNode.attrsOf : XNode → List (String × AttrVal)
  | XNode.elem _ a _ => a
  | XNode.text _ => []

/-- Children of a node. -/
def XNode.childrenOf : XNode → List XNode
  | XNode.elem _ _ c => c
  | XNode.text _ => []

/-- bs4 attribute assignment on a tag: update the value in place when the
key is already present, otherwise append the key at the end (dict insertion
order). -/
def setAttr (attrs : List (String × AttrVal)) (k : String) (v : AttrVal) :
    List (String × AttrVal) :=
  match attrs with
  | [] => [(k, v)]
  | (k', v') :: rest => if k' = k then (k, v) :: rest else (k', v') :: setAttr rest k v

/-- Python str.split on the single character slash, on the character list of
a string (models chapter_path.split given the separator slash). -/
def splitSlash : List Char → List (List Char)
  | [] => [[]]
  | c :: cs =>
    match splitSlash cs with
    | [] => [[]]
    | seg :: rest => if c = '/' then [] :: seg :: rest else (c :: seg) :: rest

/-- Python parts[-1] after splitting a path on slashes. -/
def lastSegment (path : String) : String :=
  String.mk ((splitSlash path.data).getLastD [])

/-- The item element of epub/__init__.py.  The fallback field is omitted: it
is never assigned anywhere in the repository and a recursive optional field
cannot live in a Lean structure. -/
structure Item where
  id : String := ""
  href : String := ""
  media_type : String := ""
  media_overlay : Option String := none
  is_cover_image : Bool := false
  is_mathml : Bool := false
  is_nav : Bool := false
  has_remote_resources : Bool := false
  is_scripted : Bool := false
  is_svg : Bool := false
  is_switch : Bool := false
deriving DecidableEq, Repr, Inhabited

/-- Item.append_properties: the space-joined properties token list. -/
def Item.properties_list (it : Item) : List String :=
  (if it.is_cover_image then ["cover-image"] else [])
  ++ (if it.is_mathml then ["mathml"] else [])
  ++ (if it.is_nav then ["nav"] else [])
  ++ (if it.has_remote_resources then ["remote-resources"] else [])
  ++ (if it.is_scripted then ["scripted"] else [])
  ++ (if it.is_svg then ["svg"] else [])
  ++ (if it.is_switch then ["switch"] else [])

/-- Item.append_to_document, as the element it appends (the fallback branch
never fires in the repository). -/
def Item.to_node (it : Item) : XNode :=
  let attrs := [("id", some it.id), ("href", some it.href),
                ("media-type", some it.media_type)]
  let attrs := if it.properties_list.length > 0 then
      attrs ++ [("properties", some (String.intercalate " " it.properties_list))]
    else attrs
  let attrs := match it.media_overlay with
    | none => attrs
    | some m => attrs ++ [("media-overlay", some m)]
  XNode.elem "item" attrs []

/-- The manifest element. -/
structure Manifest where
  id : Option String := none
  items : List Item := []
deriving DecidableEq, Repr

/-- Manifest.register_chapter: the id is the final slash-separated segment
of the chapter path, the media type is fixed; returns the new manifest and
the created item. -/
def Manifest.register_chapter (m : Manifest) (chapter_path : String) :
    Manifest × Item :=
  let chapter_id := lastSegment chapter_path
  let item : Item :=
    { href := chapter_path, id := chapter_id, media_type := "application/xhtml+xml" }
  ({ m with items := m.items ++ [item] }, item)

/-- TableOfContents.path_v2. -/
def tocPathV2 : String := "toc.ncx"

/-- TableOfContents.path_v3. -/
def tocPathV3 : String := "toc.xhtml"

/-- Manifest.register_table_of_contents: registers the NCX item and the nav
item and returns the NCX item. -/
def Manifest.register_table_of_contents (m : Manifest) : Manifest × Item :=
  let toc_id_v2 := lastSegment tocPathV2
  let item_v2 : Item :=
    { href := tocPathV2, id := toc_id_v2, media_type := "application/x-dtbncx+xml" }
  let toc_id_v3 := lastSegment tocPathV3
  let item_v3 : Item :=
    { href := tocPathV3, id := toc_id_v3, is_nav := true,
      media_type := "application/xhtml+xml" }
  ({ m with items := m.items ++ [item_v2, item_v3] }, item_v2)

/-- Manifest.append_to_document, as the element it appends. -/
def Manifest.append_to_document (m : Manifest) : XNode :=
  let attrs := match m.id with
    | none => []
    | some i => [("id", (some i : AttrVal))]
  XNode.elem "manifest" attrs (m.items.map Item.to_node)

/-- The itemref element of the spine. -/
structure ItemRef where
  item : Item
  is_primary : Option Bool := none
  id : Option String := none
  is_x_aligned_center : Bool := false
  flow_mode : Option String := none
  layout_mode : Option String := none
  orientation : Option String := none
  page_spread : Option String := none
  spread_condition : Option String := none
deriving DecidableEq, Repr

/-- ItemRef.append_properties: the rendition property token list. -/
def ItemRef.properties_list (r : ItemRef) : List String :=
  (if r.is_x_aligned_center then ["rendition:align-x-center"] else [])
  ++ (match r.flow_mode with
      | none => [] | some m => ["rendition:flow-" ++ m])
  ++ (match r.layout_mode with
      | none => [] | some m => ["rendition:layout-" ++ m])
  ++ (match r.orientation with
      | none => [] | some o => ["rendition:orientation-" ++ o])
  ++ (if r.page_spread = some "center" then ["rendition:page-spread-center"]
      else if r.page_spread = some "left" ∨ r.page_spread = some "right" then
        ["page-spread-" ++ r.page_spread.getD ""]
      else [])
  ++ (match r.spread_condition with
      | none => [] | some s => ["rendition:spread-" ++ s])

/-- ItemRef.append_to_document, as the element it appends. -/
def ItemRef.to_node (r : ItemRef) : XNode :=
  let attrs := [("idref", (some r.item.id : AttrVal))]
  let attrs := match r.is_primary with
    | none => attrs
    | some b => attrs ++ [("linear", some (if b then "yes" else "no"))]
  let attrs := match r.id with
    | none => attrs
    | some i => attrs ++ [("id", some i)]
  let attrs := if r.properties_list.length > 0 then
      attrs ++ [("properties", some (String.intercalate " " r.properties_list))]
    else attrs
  XNode.elem "itemref" attrs []

/-- The spine element. -/
structure Spine where
  id : Option String := none
  toc : Option String := none
  page_progression_direction : Option String := none
  itemrefs : List ItemRef := []
deriving DecidableEq, Repr

/-- Spine.append_item: wraps the item in an itemref (no keyword arguments
are ever passed at the call sites) and appends it. -/
def Spine.append_item (s : Spine) (item : Item) : Spine × ItemRef :=
  let itemref : ItemRef := { item := item }
  ({ s with itemrefs := s.itemrefs ++ [itemref] }, itemref)

/-- Spine.append_to_document, as the element it appends. -/
def Spine.append_to_document (s : Spine) : XNode :=
  let attrs : List (String × AttrVal) := []
  let attrs := match s.id with
    | none => attrs
    | some i => attrs ++ [("id", some i)]
  let attrs := match s.toc with
    | none => attrs
    | some t => attrs ++ [("toc", some t)]
  let attrs := match s.page_progression_direction with
    | none => attrs
    | some d => attrs ++ [("page-progression-direction", some d)]
  XNode.elem "spine" attrs (s.itemrefs.map ItemRef.to_node)

/-- The concrete metadata property classes of epub/meta.py (Collection is
excluded here: it is not serialized through MetaData.append_property, whose
fixed name list stops at types). -/
inductive PropKind where
  | title | creator | contributor | coverage | date | description | format
  | identifier | language | publisher | relation | rights | source | subject
  | typeKind
deriving DecidableEq, Repr

/-- The _main_tag_name of each property class. -/
def mainTagName : PropKind → String
  | PropKind.title => "dc:title"
  | PropKind.creator => "dc:creator"
  | PropKind.contributor => "dc:contributor"
  | PropKind.coverage => "dc:coverage"
  | PropKind.date => "dc:date"
  | PropKind.description => "dc:description"
  | PropKind.format => "dc:format"
  | PropKind.identifier => "dc:identifier"
  | PropKind.language => "dc:language"
  | PropKind.publisher => "dc:publisher"
  | PropKind.relation => "dc:relation"
  | PropKind.rights => "dc:rights"
  | PropKind.source => "dc:source"
  | PropKind.subject => "dc:subject"
  | PropKind.typeKind => "dc:type"

/-- Whether the class derives from Person (Creator, Contributor). -/
def isPerson : PropKind → Bool
  | PropKind.creator => true
  | PropKind.contributor => true
  | _ => false

/-- One metadata property value.  In Python the id defaults to a random
12-character string and may be set to None; it is modelled as a given
optional string.  The value is the already stringified value_string (Date
overrides it with isoformat).  The kind-specific fields (role and
role_scheme for Person, type for Title and Identifier, scheme for
Identifier) live in one record and are ignored by the serializers of the
other kinds, exactly as unset Python attributes would be. -/
structure MProp where
  kind : PropKind
  value : String := ""
  id : Option String := none
  file_as : Option String := none
  alternative_script : Option String := none
  display_seq : Option Nat := none
  meta_authority : Option String := none
  role : Option String := none
  role_scheme : Option String := none
  type : Option String := none
  scheme : Option String := none
deriving DecidableEq, Repr

/-- MetaDataProperty.append_main_tag, as the appended element. -/
def appendMainTag (p : MProp) : XNode :=
  let attrs := match p.id with
    | none => []
    | some i => [("id", (some i : AttrVal))]
  XNode.elem (mainTagName p.kind) attrs [XNode.text p.value]

/-- MetaDataProperty.append_alternative_script, as the appended elements. -/
def appendAlternativeScript (p : MProp) : List XNode :=
  match p.alternative_script with
  | none => []
  | some s =>
    [XNode.elem "meta" [("property", some "alternative-script"), ("refines", p.id)]
      [XNode.text s]]

/-- MetaDataProperty.append_display_seq, as the appended elements; the text
is str of the integer. -/
def appendDisplaySeq (p : MProp) : List XNode :=
  match p.display_seq with
  | none => []
  | some i =>
    [XNode.elem "meta" [("property", some "display-seq"), ("refines", p.id)]
      [XNode.text (Nat.repr i)]]

/-- MetaDataProperty.append_file_as, as the appended elements. -/
def appendFileAs (p : MProp) : List XNode :=
  match p.file_as with
  | none => []
  | some s =>
    [XNode.elem "meta" [("property", some "file-as"), ("refines", p.id)]
      [XNode.text s]]

/-- MetaDataProperty.append_meta_authority, as the appended elements. -/
def appendMetaAuthority (p : MProp) : List XNode :=
  match p.meta_authority with
  | none => []
  | some s =>
    [XNode.elem "meta" [("property", some "meta-auth"), ("refines", p.id)]
      [XNode.text s]]

/-- Person.append_role, as the appended elements. -/
def appendRole (p : MProp) : List XNode :=
  match p.role with
  | none => []
  | some r =>
    let attrs := [("property", (some "role" : AttrVal)), ("refines", p.id)]
    let attrs := match p.role_scheme with
      | none => attrs
      | some s => attrs ++ [("scheme", some s)]
    [XNode.elem "meta" attrs [XNode.text r]]

/-- Identifier.append_type, as the appended elements. -/
def appendIdentifierType (p : MProp) : List XNode :=
  match p.type with
  | none => []
  | some t =>
    let attrs := [("property", (some "identifier-type" : AttrVal)), ("refines", p.id)]
    let attrs := match p.scheme with
      | none => attrs
      | some s => attrs ++ [("scheme", some s)]
    [XNode.elem "meta" attrs [XNode.text t]]

/-- Title.append_to_document: a full override that emits the dc:title tag
and, when type is set, one title-type meta element, and none of the base
class refinement elements (in particular no display-seq). -/
def titleAppendToDocument (p : MProp) : List XNode :=
  let attrs := match p.id with
    | none => []
    | some i => [("id", (some i : AttrVal))]
  let tag := XNode.elem "dc:title" attrs [XNode.text p.value]
  match p.type with
  | none => [tag]
  | some t =>
    [tag, XNode.elem "meta" [("refines", p.id), ("property", some "title-type")]
      [XNode.text t]]

/-- The nodes a property appends to the metadata element: Title uses its
override; every other kind uses MetaDataProperty.append_to_document, with
Person appending role and Identifier appending identifier-type after the
base sequence. -/
def MProp.append_to_document (p : MProp) : List XNode :=
  if p.kind = PropKind.title then titleAppendToDocument p
  else
    [appendMainTag p] ++ appendAlternativeScript p ++ appendDisplaySeq p
      ++ appendFileAs p ++ appendMetaAuthority p
      ++ (if isPerson p.kind then appendRole p else [])
      ++ (if p.kind = PropKind.identifier then appendIdentifierType p else [])

/-- MetaData.append_property on one property list: a singleton list gets
display_seq cleared; otherwise every entry gets its zero-based enumeration
index as display_seq before serialization. -/
def MetaData.append_property (prop_values : List MProp) : List XNode :=
  match prop_values with
  | [v] => MProp.append_to_document { v with display_seq := none }
  | vs =>
    (vs.enum.map fun iv =>
      MProp.append_to_document { iv.2 with display_seq := some iv.1 }).flatten

/-- The MetaData aggregate.  The modified timestamp is kept as its isoformat
string. -/
structure MetaData where
  contributors : List MProp := []
  coverages : List MProp := []
  creators : List MProp := []
  dates : List MProp := []
  descriptions : List MProp := []
  formats : List MProp := []
  identifiers : List MProp := [{ kind := PropKind.identifier }]
  languages : List MProp := [{ kind := PropKind.language }]
  publishers : List MProp := []
  relations : List MProp := []
  rights : List MProp := []
  sources : List MProp := []
  subjects : List MProp := []
  types : List MProp := []
  titles : List MProp := [{ kind := PropKind.title }]
  collections : List MProp := []
  modified : String := ""
deriving DecidableEq, Repr

/-- MetaData.append_to_document, as the metadata element it appends: the
property lists in the fixed prop_names order, then the dcterms:modified
meta element. -/
def MetaData.append_to_document (md : MetaData) : XNode :=
  let props :=
    MetaData.append_property md.titles
    ++ MetaData.append_property md.creators
    ++ MetaData.append_property md.identifiers
    ++ MetaData.append_property md.contributors
    ++ MetaData.append_property md.coverages
    ++ MetaData.append_property md.dates
    ++ MetaData.append_property md.descriptions
    ++ MetaData.append_property md.formats
    ++ MetaData.append_property md.languages
    ++ MetaData.append_property md.publishers
    ++ MetaData.append_property md.relations
    ++ MetaData.append_property md.rights
    ++ MetaData.append_property md.sources
    ++ MetaData.append_property md.subjects
    ++ MetaData.append_property md.types
  let modified_tag :=
    XNode.elem "meta" [("property", some "dcterms:modified")] [XNode.text md.modified]
  XNode.elem "metadata" [("xmlns:dc", some "http://purl.org/dc/elements/1.1/")]
    (props ++ [modified_tag])

/-- The package document of epub/__init__.py.  The Python field named after
the XML prefix attribute is called prefix_attr here because its Python name
is a Lean keyword; the untyped, never-read collection list is omitted. -/
structure PackageDocument where
  version : String := "3.0"
  unique_identifier : String := "BookID"
  prefix_attr : Option String := none
  language : Option String := none
  text_direction : Option String := none
  id : Option String := none
  meta_data : MetaData := {}
  manifest : Manifest := {}
  spine : Spine := {}
  bindings : Option String := none
  path : String := "content.opf"
deriving DecidableEq, Repr

/-- PackageDocument.to_document: the parsed skeleton already carries the
xmlns:opf attribute; the remaining attributes are assigned in source order.
When text_direction is set the code assigns the language field (not the
text_direction field) to xml:lang. -/
def PackageDocument.to_document (pd : PackageDocument) : XNode :=
  let attrs := [("xmlns:opf", (some "http://www.idpf.org/2007/opf" : AttrVal))]
  let attrs := setAttr attrs "version" (some pd.version)
  let attrs := setAttr attrs "unique_identifier" (some pd.unique_identifier)
  let attrs := match pd.prefix_attr with
    | none => attrs
    | some p => setAttr attrs "prefix" (some p)
  let attrs := match pd.language with
    | none => attrs
    | some l => setAttr attrs "language" (some l)
  let attrs := match pd.text_direction with
    | none => attrs
    | some _ => setAttr attrs "xml:lang" pd.language
  let attrs := match pd.id with
    | none => attrs
    | some i => setAttr attrs "id" (some i)
  XNode.elem "package" attrs
    [pd.meta_data.append_to_document,
     pd.manifest.append_to_document,
     pd.spine.append_to_document]

/-- A word character of the Python regex backslash-W complement.  On the
ASCII range this is exactly Python's class: letters, digits and the
underscore.  Python's re module is Unicode-aware and additionally counts
non-ASCII word characters (which this predicate does not), so every
statement built on it restricts titles to ASCII characters, where the
model agrees with the program exactly. -/
def pythonWordChar (c : Char) : Bool := c.isAlphanum || c = '_'

/-- Whether every character of a string is ASCII, the domain on which the
modelled word-character class coincides with Python's. -/
abbrev asciiOnly (t : String) : Prop := ∀ c ∈ t.data, c.toNat < 128

/-- re.sub of every non-word character with an underscore, as the scan the
regex engine performs over the character list. -/
def reSubNonWordUnderscore : List Char → List Char
  | [] => []
  | c :: cs =>
    (if pythonWordChar c then c else '_') :: reSubNonWordUnderscore cs

/-- Python format {:03}: the decimal digits left-padded with zeros to at
least three characters. -/
def zeroPad3 (s : String) : String :=
  if s.length < 3 then String.mk (List.replicate (3 - s.length) '0') ++ s else s

/-- Chapter.path: the f-string joining the fixed pieces, the zero-padded
ordinal and the sluggified title. -/
def Chapter.path (number : Nat) (title : String) : String :=
  "Text/chapter_" ++ zeroPad3 (Nat.repr number) ++ "_"
    ++ String.mk (reSubNonWordUnderscore title.data) ++ ".xhtml"

/-- The data of one chapter as the Book pipeline sees it: the mutable
ordinal number and the externally sourced title.  The content nodes play no
role in the claims about the Book pipeline and are modelled separately for
the chapter document claim. -/
structure ChapterData where
  number : Nat := 0
  title : String := ""
deriving DecidableEq, Repr, Inhabited

/-- Book.title: the value of the first title of the package document's
metadata (Python indexes titles[0]; the default MetaData always has one). -/
def bookTitle (pd : PackageDocument) : String :=
  (pd.meta_data.titles.headD { kind := PropKind.title }).value

/-- PackageDocument.register_chapter: registers the chapter path in the
manifest and appends the resulting item to the spine. -/
def PackageDocument.register_chapter (pd : PackageDocument) (chapter : ChapterData) :
    PackageDocument :=
  let mi := pd.manifest.register_chapter (Chapter.path chapter.number chapter.title)
  let st := pd.spine.append_item mi.2
  { pd with manifest := mi.1, spine := st.1 }

/-- PackageDocument.register_table_of_contents: registers the two nav items
and points the spine toc attribute at the NCX item id. -/
def PackageDocument.register_table_of_contents (pd : PackageDocument) :
    PackageDocument :=
  let mi := pd.manifest.register_table_of_contents
  { pd with manifest := mi.1, spine := { pd.spine with toc := some mi.2.id } }

/-- The operations the repository performs on a package document after its
creation (to_document and write read but never change it). -/
inductive PDOp where
  | register_chapter (chapter : ChapterData)
  | register_table_of_contents

/-- Apply one package-document operation. -/
def applyOp (pd : PackageDocument) : PDOp → PackageDocument
  | PDOp.register_chapter c => pd.register_chapter c
  | PDOp.register_table_of_contents => pd.register_table_of_contents

/-- Apply a sequence of package-document operations in order. -/
def applyOps (pd : PackageDocument) (ops : List PDOp) : PackageDocument :=
  ops.foldl applyOp pd

/-- The paths of the chapters a sequence of operations registers, in call
order. -/
def registeredChapterPaths (ops : List PDOp) : List String :=
  ops.filterMap fun op =>
    match op with
    | PDOp.register_chapter c => some (Chapter.path c.number c.title)
    | PDOp.register_table_of_contents => none

/-- The Book state: its package document plus the chapter sequence, split
into the materialized cache _chapters (initialized to the TitleChapter and
the supplied first chapter) and the not yet fetched rest of the forward
chain of chapter successors. -/
structure Book where
  package_document : PackageDocument
  _chapters : List ChapterData
  remaining : List ChapterData
deriving DecidableEq, Repr

/-- Book.__init__ with a first chapter whose forward chain yields rest: the
cache starts as TitleChapter (ordinal 0, titled with the book title) plus
the first chapter. -/
def mkBook (pd : PackageDocument) (first : ChapterData) (rest : List ChapterData) :
    Book :=
  { package_document := pd
    _chapters := [{ number := 0, title := bookTitle pd }, first]
    remaining := rest }

/-- The full chapter sequence Book iteration enumerates: the cache followed
by the chapters the forward chain still yields. -/
def Book.chapters_seq (b : Book) : List ChapterData :=
  b._chapters ++ b.remaining

/-- The loop of Book.__getitem__: while the index misses the cache (always,
for a negative index) pull the next chapter from the forward chain into the
cache; an exhausted chain raises IndexError, modelled as a false flag.
Returns the final cache, the rest of the chain and the success flag. -/
def getitemAux (max_index : Int) :
    List ChapterData → List ChapterData → List ChapterData × List ChapterData × Bool
  | [], chapters =>
    if 0 ≤ max_index ∧ max_index < chapters.length then (chapters, [], true)
    else (chapters, [], false)
  | c :: rest, chapters =>
    if 0 ≤ max_index ∧ max_index < chapters.length then (chapters, c :: rest, true)
    else getitemAux max_index rest (chapters ++ [c])

/-- Book.__getitem__ at an integer index: none models the raised
IndexError. -/
def Book.getitem (b : Book) (i : Int) : Book × Option ChapterData :=
  let r := getitemAux i b.remaining b._chapters
  ({ b with _chapters := r.1, remaining := r.2.1 },
   if r.2.2 then r.1.get? i.toNat else none)

/-- Book.process_chapters: enumerate the whole chapter sequence, stamp each
chapter's number with its enumeration index, register it with the package
document (and write it, a file effect outside this model). -/
def Book.process_chapters (b : Book) : Book :=
  let numbered := b.chapters_seq.enum.map fun ic => { ic.2 with number := ic.1 }
  { package_document :=
      numbered.foldl (fun pd c => pd.register_chapter c) b.package_document
    _chapters := numbered
    remaining := [] }

/-- Book.process: process the chapters, then register the table of contents
(the writes are file effects outside this model). -/
def Book.process (b : Book) : Book :=
  let b1 := b.process_chapters
  { b1 with package_document := b1.package_document.register_table_of_contents }

/-- TableOfContents.append_chapter_to_document_v2, as the navPoint element:
its playOrder attribute is the chapter number plus one, stringified by
bs4. -/
def navPointV2 (c : ChapterData) : XNode :=
  XNode.elem "navPoint" [("playOrder", some (Nat.repr (c.number + 1)))]
    [XNode.elem "navLabel" [] [XNode.elem "text" [] [XNode.text c.title]],
     XNode.elem "content" [("src", some (Chapter.path c.number c.title))] []]

/-- TableOfContents.generate_version_2_document: the NCX skeleton with the
book title in docTitle and one navPoint per chapter of the book's full
sequence (iterating the book materializes any not yet fetched chapters). -/
def generate_version_2_document (b : Book) : XNode :=
  XNode.elem "ncx"
    [("xmlns", some "http://www.daisy.org/z3986/2005/ncx/"),
     ("version", some "2005-1"), ("xml:lang", some "en-US")]
    [XNode.elem "head" [] [],
     XNode.elem "docTitle" []
       [XNode.elem "text" [] [XNode.text (bookTitle b.package_document)]],
     XNode.elem "navMap" [] (b.chapters_seq.map navPointV2)]

/-- The navPoint children of the navMap element of the generated NCX
document. -/
def ncxNavPoints (b : Book) : List XNode :=
  ((generate_version_2_document b).childrenOf.filterMap fun n =>
    if n.nameOf = "navMap" then some n.childrenOf else none).flatten

/-- The playOrder attribute values of the generated navPoints, in document
order. -/
def ncxPlayOrders (b : Book) : List String :=
  (ncxNavPoints b).filterMap fun n => (n.attrsOf.lookup "playOrder").bind id

mutual
/-- A bs4 node as Chapter.create_document manipulates it, carrying the
Python object identity as objId so that aliasing versus copying is
observable.  Children are a dedicated list type so recursion over the tree
stays structural. -/
inductive BNode where
  | tag (objId : Nat) (name : String) (attrs : List (String × String))
      (children : BNodeList)
  | nstring (objId : Nat) (s : String)

/-- The children list of a BNode. -/
inductive BNodeList where
  | nil
  | cons (hd : BNode) (tl : BNodeList)
end

mutual
/-- copy.copy of a bs4 Tag: a full recursive copy whose every node is a new
object; the counter allocates the fresh object identities. -/
def copyBNode : BNode → Nat → BNode × Nat
  | BNode.tag _ n a ch, ctr =>
    let r := copyBNodeList ch (ctr + 1)
    (BNode.tag ctr n a r.1, r.2)
  | BNode.nstring _ s, ctr => (BNode.nstring ctr s, ctr + 1)

/-- copy.copy lifted over a children list. -/
def copyBNodeList : BNodeList → Nat → BNodeList × Nat
  | BNodeList.nil, ctr => (BNodeList.nil, ctr)
  | BNodeList.cons n ns, ctr =>
    let r := copyBNode n ctr
    let rs := copyBNodeList ns r.2
    (BNodeList.cons r.1 rs.1, rs.2)
end

mutual
/-- All object identities occurring in a tree. -/
def bnodeIds : BNode → List Nat
  | BNode.tag i _ _ ch => i :: bnodeListIds ch
  | BNode.nstring i _ => [i]

/-- All object identities occurring in a children list. -/
def bnodeListIds : BNodeList → List Nat
  | BNodeList.nil => []
  | BNodeList.cons n ns => bnodeIds n ++ bnodeListIds ns
end

/-- Escaping of the bs4 minimal formatter: only the characters XML itself
requires, the ampersand and the angle brackets. -/
def escapeMinimalList : List Char → List Char
  | [] => []
  | c :: cs =>
    (if c = '&' then "&amp;".data
     else if c = '<' then "&lt;".data
     else if c = '>' then "&gt;".data
     else [c]) ++ escapeMinimalList cs

/-- Minimal-formatter escaping on a string. -/
def escapeMinimal (s : String) : String := String.mk (escapeMinimalList s.data)

/-- Serialization of an attribute list with minimally escaped values. -/
def serializeBAttrs : List (String × String) → String
  | [] => ""
  | (k, v) :: rest =>
    " " ++ k ++ "=" ++ "\"" ++ escapeMinimal v ++ "\"" ++ serializeBAttrs rest

mutual
/-- Serialization of a node with the minimal formatter (whitespace
prettifying aside, which changes no text content). -/
def serializeBNode : BNode → String
  | BNode.tag _ n attrs ch =>
    "<" ++ n ++ serializeBAttrs attrs ++ ">" ++ serializeBNodeList ch ++ "</" ++ n ++ ">"
  | BNode.nstring _ s => escapeMinimal s

/-- Serialization of a children list. -/
def serializeBNodeList : BNodeList → String
  | BNodeList.nil => ""
  | BNodeList.cons n ns => serializeBNode n ++ serializeBNodeList ns
end

mutual
/-- The first descendant element with the given tag name, in document
order (how the test of the round-trip claim locates title, h1 and p). -/
def findByName (nm : String) : BNode → Option BNode
  | BNode.tag i n a ch =>
    if n = nm then some (BNode.tag i n a ch) else findInBNodeList nm ch
  | BNode.nstring _ _ => none

/-- findByName over a children list. -/
def findInBNodeList (nm : String) : BNodeList → Option BNode
  | BNodeList.nil => none
  | BNodeList.cons c cs =>
    match findByName nm c with
    | some r => some r
    | none => findInBNodeList nm cs
end

/-- The children of a BNode. -/
def bchildren : BNode → BNodeList
  | BNode.tag _ _ _ ch => ch
  | BNode.nstring _ _ => BNodeList.nil

/-- Copy each content node in order, threading the identity allocator. -/
def copyContentList : List BNode → Nat → BNodeList × Nat
  | [], ctr => (BNodeList.nil, ctr)
  | n :: ns, ctr =>
    let r := copyBNode n ctr
    let rs := copyContentList ns r.2
    (BNodeList.cons r.1 rs.1, rs.2)

/-- Chapter.create_document: parse the fixed XHTML skeleton (its nodes are
fresh objects, allocated here from the counter: html, head, title, link,
body, h1 and the two title strings), set the chapter title as the string of
head title and of body h1, and append a copy of each content node under
body.  Returns the document and the next free object identity. -/
def Chapter.create_document (title : String) (content : List BNode) (ctr : Nat) :
    BNode × Nat :=
  let copies := copyContentList content (ctr + 8)
  (BNode.tag ctr "html"
    [("xmlns", "http://www.w3.org/1999/xhtml"), ("xml:lang", "en"), ("lang", "en")]
    (BNodeList.cons
      (BNode.tag (ctr + 1) "head" []
        (BNodeList.cons
          (BNode.tag (ctr + 2) "title" []
            (BNodeList.cons (BNode.nstring (ctr + 6) title) BNodeList.nil))
          (BNodeList.cons
            (BNode.tag (ctr + 3) "link"
              [("rel", "stylesheet"), ("href", "../Styles/default_style.css"),
               ("type", "text/css")]
              BNodeList.nil)
            BNodeList.nil)))
      (BNodeList.cons
        (BNode.tag (ctr + 4) "body" []
          (BNodeList.cons
            (BNode.tag (ctr + 5) "h1" []
              (BNodeList.cons (BNode.nstring (ctr + 7) title) BNodeList.nil))
            copies.1))
        BNodeList.nil)),
   copies.2)

/-- A zip entry's compression method. -/
inductive ZipMethod where
  | stored
  | deflated
deriving DecidableEq, Repr

/-- One entry of the produced zip archive. -/
structure ZipEntry where
  name : String
  zip_method : ZipMethod
deriving DecidableEq, Repr

/-- EPub.compress: shutil.make_archive with the zip format opens the
archive with compression ZIP_DEFLATED and writes the files os.walk yields,
so every entry is deflated and the entry order is the filesystem's
directory-walk order, a parameter here. -/
def EPub.compress (walk_files : List String) : List ZipEntry :=
  walk_files.map fun p => { name := p, zip_method := ZipMethod.deflated }

/-- Whether a node is a display-seq meta element, and if so the text it
carries. -/
def dseqText? (n : XNode) : Option String :=
  match n with
  | XNode.elem nm attrs children =>
    if nm = "meta" ∧ attrs.lookup "property" = some (some "display-seq") then
      some (match children with
            | [XNode.text s] => s
            | _ => "")
    else none
  | XNode.text _ => none

/-- The texts of the display-seq meta elements of a node sequence, in
document order. -/
def displaySeqTexts (nodes : List XNode) : List String :=
  nodes.filterMap dseqText?

/-- The package attributes in the order section 4.3 of the specification
words them: version, unique_identifier, then prefix, language, xml:lang and
id, each omitted when the corresponding field is unset.  The xml:lang entry
appears exactly when text_direction is set; which value it carries is the
parameter, so the claim's reading (the text_direction value) and the code's
behaviour (the language value) can both be expressed. -/
def specPackageAttrsWith (pd : PackageDocument) (xml_lang_value : AttrVal) :
    List (String × AttrVal) :=
  [("version", some pd.version), ("unique_identifier", some pd.unique_identifier)]
  ++ (match pd.prefix_attr with | none => [] | some p => [("prefix", some p)])
  ++ (match pd.language with | none => [] | some l => [("language", some l)])
  ++ (match pd.text_direction with | none => [] | some _ => [("xml:lang", xml_lang_value)])
  ++ (match pd.id with | none => [] | some i => [("id", some i)])

/-- A package document with both a language and a text direction set. -/
def c3pd : PackageDocument := { language := some "en", text_direction := some "rtl" }

/-- A titles list with two entries. -/
def twoTitlesC2 : List MProp :=
  [{ kind := PropKind.title, value := "A" }, { kind := PropKind.title, value := "B" }]

/-- A creators list with two entries. -/
def twoCreatorsC2 : List MProp :=
  [{ kind := PropKind.creator, value := "A" }, { kind := PropKind.creator, value := "B" }]

/-- A book whose chapter source yields three content chapters (the supplied
first chapter plus two successors), fully processed. -/
def processedThreeChapterBook (c1 c2 c3 : ChapterData) : Book :=
  (mkBook {} c1 [c2, c3]).process

/-- A book over an arbitrary chapter source, after process_chapters. -/
def processedBook (pd : PackageDocument) (first : ChapterData)
    (rest : List ChapterData) : Book :=
  (mkBook pd first rest).process_chapters

/-- A small concrete book used to evaluate negative indexing. -/
def c10book : Book := mkBook {} { title := "c1" } [{ title := "c2" }]

/-- One possible directory-walk order of the staging tree the generator
itself lays out before compressing. -/
def c1walk : List String :=
  ["CONTENT/content_0.opf", "CONTENT/toc.ncx", "CONTENT/toc.xhtml",
   "CONTENT/Text/chapter_000_Title.xhtml", "META-INF/container.xml", "mimetype"]

/-- The source content node of the round-trip test: a p tag holding the
text hello, with object identities 0 and 1. -/
def c8src : BNode :=
  BNode.tag 0 "p" [] (BNodeList.cons (BNode.nstring 1 "hello") BNodeList.nil)

/-- The chapter document built from the title Test & Title and the single
source content node, with skeleton identities allocated from 100. -/
def c8doc : BNode := (Chapter.create_document "Test & Title" [c8src] 100).1

/-- Splitting a node sequence splits its display-seq texts. -/
theorem displaySeqTexts_append (a b : List XNode) :
    displaySeqTexts (a ++ b) = displaySeqTexts a ++ displaySeqTexts b :=
  List.filterMap_append a b dseqText?

/-- The main tag of a property is never a display-seq meta element. -/
theorem dseqText?_mainTag (p : MProp) : dseqText? (appendMainTag p) = none := by
  cases h : p.kind <;> simp [appendMainTag, dseqText?, mainTagName, h]

/-- The alternative-script refinement emits no display-seq element. -/
theorem displaySeqTexts_alt (p : MProp) :
    displaySeqTexts (appendAlternativeScript p) = [] := by
  cases h : p.alternative_script <;>
    simp [appendAlternativeScript, h, displaySeqTexts, dseqText?, List.lookup]

/-- The file-as refinement emits no display-seq element. -/
theorem displaySeqTexts_fileAs (p : MProp) :
    displaySeqTexts (appendFileAs p) = [] := by
  cases h : p.file_as <;>
    simp [appendFileAs, h, displaySeqTexts, dseqText?, List.lookup]

/-- The meta-authority refinement emits no display-seq element. -/
theorem displaySeqTexts_metaAuth (p : MProp) :
    displaySeqTexts (appendMetaAuthority p) = [] := by
  cases h : p.meta_authority <;>
    simp [appendMetaAuthority, h, displaySeqTexts, dseqText?, List.lookup]

/-- The role refinement emits no display-seq element. -/
theorem displaySeqTexts_role (p : MProp) :
    displaySeqTexts (appendRole p) = [] := by
  cases h : p.role <;> cases h2 : p.role_scheme <;>
    simp [appendRole, h, h2, displaySeqTexts, dseqText?, List.lookup]

/-- The identifier-type refinement emits no display-seq element. -/
theorem displaySeqTexts_idType (p : MProp) :
    displaySeqTexts (appendIdentifierType p) = [] := by
  cases h : p.type <;> cases h2 : p.scheme <;>
    simp [appendIdentifierType, h, h2, displaySeqTexts, dseqText?, List.lookup]

/-- The display-seq refinement emits exactly the stringified display_seq
value, when set. -/
theorem displaySeqTexts_dseq (p : MProp) :
    displaySeqTexts (appendDisplaySeq p) = (p.display_seq.map Nat.repr).toList := by
  cases h : p.display_seq <;>
    simp [appendDisplaySeq, h, displaySeqTexts, dseqText?, List.lookup]

/-- The Title serializer emits no display-seq element at all. -/
theorem displaySeqTexts_title (p : MProp) :
    displaySeqTexts (titleAppendToDocument p) = [] := by
  cases h : p.type <;>
    simp [titleAppendToDocument, h, displaySeqTexts, dseqText?, List.lookup]

/-- The display-seq texts a single property emits: none for a Title, the
stringified display_seq value for every other kind. -/
theorem displaySeqTexts_append_to_document (p : MProp) :
    displaySeqTexts (MProp.append_to_document p)
      = if p.kind = PropKind.title then []
        else (p.display_seq.map Nat.repr).toList := by
  by_cases hk : p.kind = PropKind.title
  · simp [MProp.append_to_document, hk, displaySeqTexts_title]
  · simp only [MProp.append_to_document, hk, if_false]
    rw [displaySeqTexts_append, displaySeqTexts_append, displaySeqTexts_append,
        displaySeqTexts_append, displaySeqTexts_append]
    have hmain : displaySeqTexts [appendMainTag p] = [] := by
      simp [displaySeqTexts, dseqText?_mainTag]
    have hrole : displaySeqTexts
        (if isPerson p.kind = true then appendRole p else []) = [] := by
      split
      · exact displaySeqTexts_role p
      · simp [displaySeqTexts]
    have hid : displaySeqTexts
        (if p.kind = PropKind.identifier then appendIdentifierType p else []) = [] := by
      split
      · exact displaySeqTexts_idType p
      · simp [displaySeqTexts]
    have hconsmain : displaySeqTexts (appendMainTag p :: appendAlternativeScript p) = [] := by
      have hsplit : (appendMainTag p :: appendAlternativeScript p : List XNode)
          = [appendMainTag p] ++ appendAlternativeScript p := rfl
      rw [hsplit, displaySeqTexts_append, hmain, displaySeqTexts_alt]
      rfl
    simp [hconsmain, hrole, hid, displaySeqTexts_fileAs,
          displaySeqTexts_metaAuth, displaySeqTexts_dseq]

/-- The display-seq texts of an enumerated, display_seq-stamped property
list: empty for Titles, the stringified positions from the start index
otherwise. -/
theorem displaySeqTexts_enumFrom (k : PropKind) :
    ∀ (props : List MProp) (i : Nat), (∀ p ∈ props, p.kind = k) →
      displaySeqTexts ((props.enumFrom i).map fun ip =>
          MProp.append_to_document { ip.2 with display_seq := some ip.1 }).flatten
        = if k = PropKind.title then [] else (List.range' i props.length).map Nat.repr := by
  intro props
  induction props with
  | nil => intro i _; simp [displaySeqTexts]
  | cons p ps ih =>
    intro i hmem
    have hp : p.kind = k := hmem p (List.mem_cons_self _ _)
    have hps : ∀ q ∈ ps, q.kind = k := fun q hq => hmem q (List.mem_cons_of_mem _ hq)
    rw [List.enumFrom_cons]
    simp only [List.map_cons, List.flatten_cons]
    rw [displaySeqTexts_append, displaySeqTexts_append_to_document, ih (i + 1) hps]
    by_cases hk : k = PropKind.title
    · simp [hk, hp]
    · have hkp : ¬ ({ p with display_seq := some i } : MProp).kind = PropKind.title := by
        simpa [hp] using hk
      simp [hk, hkp, List.range'_succ]

/-- A singleton property list emits no display-seq element, whatever its
kind. -/
theorem metadata_append_property_single (v : MProp) :
    displaySeqTexts (MetaData.append_property [v]) = [] := by
  show displaySeqTexts (MProp.append_to_document { v with display_seq := none }) = []
  rw [displaySeqTexts_append_to_document]
  split <;> simp

/-- Enumerating with indexed number stamping turns the numbers into the
index range. -/
theorem numbered_map_number :
    ∀ (l : List ChapterData) (i : Nat),
      ((l.enumFrom i).map fun ic => { ic.2 with number := ic.1 }).map (fun c => c.number)
        = List.range' i l.length := by
  intro l
  induction l with
  | nil => intro i; rfl
  | cons c cs ih =>
    intro i
    rw [List.enumFrom_cons]
    simp only [List.map_cons, List.length_cons, List.range'_succ]
    rw [ih (i + 1)]

/-- The playOrder attributes of the generated NCX document are the
stringified chapter numbers plus one, in chapter order. -/
theorem ncxPlayOrders_eq (b : Book) :
    ncxPlayOrders b = b.chapters_seq.map fun c => Nat.repr (c.number + 1) := by
  unfold ncxPlayOrders ncxNavPoints generate_version_2_document
  simp only [XNode.childrenOf, XNode.nameOf, List.filterMap_cons]
  simp only [reduceIte]
  induction b.chapters_seq with
  | nil => rfl
  | cons c cs ih =>
    simp_all [navPointV2, XNode.attrsOf, List.lookup]

/-- C1: the claim says the produced zip archive's first entry is named
mimetype and is stored without compression.  The code zips the staging tree
with the stock shutil.make_archive zip writer: at the staging tree the
generator itself lays out, every entry (the mimetype entry included) is
deflated, and in this walk order the first entry is not the mimetype
either; the specification's mimetype-first-stored requirement is stated
explicitly, so this is a defect of the code. -/
theorem C1_mimetype_compressed :
    (∀ e ∈ EPub.compress c1walk, e.zip_method = ZipMethod.deflated)
    ∧ (¬ ∃ e ∈ EPub.compress c1walk, e.name = "mimetype" ∧ e.zip_method = ZipMethod.stored)
    ∧ ((EPub.compress c1walk).map ZipEntry.name).headD "" ≠ "mimetype" := by
  decide

/-- C2, counterexample: a titles list of length two emits no display-seq
element at all (Title.append_to_document never calls append_display_seq),
so the claim that every entry's emitted display-seq carries its zero-based
position fails on titles. -/
theorem C2_counterexample :
    ¬ (1 < twoTitlesC2.length →
        displaySeqTexts (MetaData.append_property twoTitlesC2)
          = (List.range twoTitlesC2.length).map Nat.repr) := by
  decide

/-- C2, amended: for a single-entry property list no display-seq element is
emitted; for a longer list every entry is stamped with its zero-based
position and, for every property kind except Title, the emitted display-seq
elements carry exactly those positions in order, while Title entries emit
no display-seq element. -/
theorem C2_display_seq_amended (k : PropKind) (props : List MProp)
    (hk : ∀ p ∈ props, p.kind = k) :
    (props.length = 1 → displaySeqTexts (MetaData.append_property props) = [])
    ∧ (1 < props.length →
        displaySeqTexts (MetaData.append_property props)
          = if k = PropKind.title then []
            else (List.range props.length).map Nat.repr) := by
  constructor
  · intro h1
    cases props with
    | nil => simp at h1
    | cons p ps =>
      cases ps with
      | nil => exact metadata_append_property_single p
      | cons q qs => simp at h1
  · intro h2
    cases props with
    | nil => simp at h2
    | cons p ps =>
      cases ps with
      | nil => simp at h2
      | cons q qs =>
        have hmain := displaySeqTexts_enumFrom k (p :: q :: qs) 0 hk
        have henum : MetaData.append_property (p :: q :: qs)
            = (((p :: q :: qs).enumFrom 0).map fun ip =>
                MProp.append_to_document { ip.2 with display_seq := some ip.1 }).flatten := rfl
        rw [henum, hmain, List.range_eq_range']

/-- C2, witness: on a creators list of length two the amended claim yields
the positions zero and one. -/
theorem C2_display_seq_amended_witness :
    displaySeqTexts (MetaData.append_property twoCreatorsC2)
      = if PropKind.creator = PropKind.title then []
        else (List.range twoCreatorsC2.length).map Nat.repr :=
  (C2_display_seq_amended PropKind.creator twoCreatorsC2 (by decide)).2 (by decide)

/-- C3, counterexample: with language en and text_direction rtl, the
serialized package's xml:lang attribute carries en, the language value, not
rtl, the text_direction value the claim names. -/
theorem C3_counterexample :
    (PackageDocument.to_document c3pd).attrsOf.lookup "xml:lang" = some (some "en")
    ∧ ¬ ((PackageDocument.to_document c3pd).attrsOf.lookup "xml:lang" = some (some "rtl"))
    ∧ ¬ ((PackageDocument.to_document c3pd).attrsOf
          = ("xmlns:opf", some "http://www.idpf.org/2007/opf")
              :: specPackageAttrsWith c3pd (some "rtl")) := by
  decide

/-- C3, amended: to_document emits a single package root whose attributes
are, after the xmlns:opf attribute the parsed skeleton already carries, in
the order version, unique_identifier, prefix, language, xml:lang, id, with
prefix, language, xml:lang and id omitted when the corresponding field is
unset; the xml:lang attribute is emitted when text_direction is set and
carries the language field's value; the children are exactly the metadata,
manifest and spine elements in that fixed order. -/
theorem C3_package_document_amended (pd : PackageDocument) :
    (PackageDocument.to_document pd).nameOf = "package"
    ∧ (PackageDocument.to_document pd).attrsOf
        = ("xmlns:opf", some "http://www.idpf.org/2007/opf")
            :: specPackageAttrsWith pd pd.language
    ∧ (PackageDocument.to_document pd).childrenOf.map XNode.nameOf
        = ["metadata", "manifest", "spine"] := by
  refine ⟨rfl, ?_, ?_⟩
  · cases hp : pd.prefix_attr <;> cases hl : pd.language <;>
      cases ht : pd.text_direction <;> cases hi : pd.id <;>
      simp [PackageDocument.to_document, specPackageAttrsWith, setAttr,
            hp, hl, ht, hi, XNode.attrsOf]
  · simp [PackageDocument.to_document, XNode.childrenOf, XNode.nameOf,
          MetaData.append_to_document, Manifest.append_to_document,
          Spine.append_to_document]

/-- C4: a chapter source yielding exactly three content chapters produces,
after processing, exactly four chapter items in the manifest (the synthetic
title chapter plus three; the two table-of-contents items are not chapter
items: one has the NCX media type, the other the nav property), four spine
itemrefs and four table-of-contents entries. -/
theorem C4_three_chapter_counts (c1 c2 c3 : ChapterData) :
    ((processedThreeChapterBook c1 c2 c3).package_document.manifest.items.filter fun it =>
        it.media_type == "application/xhtml+xml" && !it.is_nav).length = 4
    ∧ (processedThreeChapterBook c1 c2 c3).package_document.spine.itemrefs.length = 4
    ∧ (ncxNavPoints (processedThreeChapterBook c1 c2 c3)).length = 4 :=
  ⟨rfl, rfl, rfl⟩

/-- C5: over any sequence of package-document operations, the spine's
itemref hrefs are the previously present ones followed by the registered
chapters' paths in registration order; registering a table of contents
never changes the itemref list, so spine order always equals chapter
registration order. -/
theorem C5_spine_order_invariant (pd : PackageDocument) (ops : List PDOp) :
    ((applyOps pd ops).spine.itemrefs.map fun r => r.item.href)
      = (pd.spine.itemrefs.map fun r => r.item.href) ++ registeredChapterPaths ops := by
  induction ops generalizing pd with
  | nil => simp [applyOps, registeredChapterPaths]
  | cons op rest ih =>
    rw [show applyOps pd (op :: rest) = applyOps (applyOp pd op) rest from rfl, ih]
    cases op with
    | register_chapter c =>
      simp [applyOp, PackageDocument.register_chapter, Manifest.register_chapter,
            Spine.append_item, registeredChapterPaths]
    | register_table_of_contents =>
      simp [applyOp, PackageDocument.register_table_of_contents,
            Manifest.register_table_of_contents, registeredChapterPaths]

/-- C6, counterexample: two distinct chapter paths sharing the final path
segment yield the same item id. -/
theorem C6_counterexample :
    ("a/x.xhtml" : String) ≠ "b/x.xhtml"
    ∧ ((Manifest.register_chapter {} "a/x.xhtml").1.register_chapter "b/x.xhtml").2.id
        = (Manifest.register_chapter {} "a/x.xhtml").2.id := by
  decide

/-- C6, amended: every registered chapter item's id is the final path
segment of its href and its media type is application/xhtml+xml; two
chapters registered with paths whose final segments differ get distinct
ids. -/
theorem C6_manifest_ids_amended (m : Manifest) (p₁ p₂ : String)
    (h : lastSegment p₁ ≠ lastSegment p₂) :
    (m.register_chapter p₁).2.id = lastSegment p₁
    ∧ (m.register_chapter p₁).2.media_type = "application/xhtml+xml"
    ∧ ((m.register_chapter p₁).1.register_chapter p₂).2.id = lastSegment p₂
    ∧ (m.register_chapter p₁).2.id ≠ ((m.register_chapter p₁).1.register_chapter p₂).2.id :=
  ⟨rfl, rfl, rfl, h⟩

/-- C6, witness: two concrete chapter paths with distinct final segments. -/
theorem C6_manifest_ids_amended_witness :
    lastSegment "Text/chapter_000_a.xhtml" ≠ lastSegment "Text/chapter_001_b.xhtml"
    ∧ (Manifest.register_chapter {} "Text/chapter_000_a.xhtml").2.id
        = lastSegment "Text/chapter_000_a.xhtml" :=
  ⟨by decide,
   (C6_manifest_ids_amended {} "Text/chapter_000_a.xhtml" "Text/chapter_001_b.xhtml"
     (by decide)).1⟩

/-- C7: in the generated NCX document each navPoint's playOrder is the
chapter's ordinal plus one; after processing, the ordinals are zero up to
the chapter count, so the playOrder values are one plus the range, strictly
increasing, starting at one, and the first chapter of the sequence is the
synthetic title chapter of ordinal zero. -/
theorem C7_playorder (pd : PackageDocument) (first : ChapterData)
    (rest : List ChapterData) :
    ncxPlayOrders (processedBook pd first rest)
      = ((processedBook pd first rest).chapters_seq.map fun c => Nat.repr (c.number + 1))
    ∧ ((processedBook pd first rest).chapters_seq.map fun c => c.number + 1)
        = (List.range (2 + rest.length)).map (fun k => k + 1)
    ∧ List.Chain' (· < ·)
        ((processedBook pd first rest).chapters_seq.map fun c => c.number + 1)
    ∧ ((processedBook pd first rest).chapters_seq.map fun c => c.number + 1).headD 0 = 1
    ∧ ((processedBook pd first rest).chapters_seq.headD default).number = 0 := by
  have hseq : (processedBook pd first rest).chapters_seq
      = (((mkBook pd first rest).chapters_seq.enumFrom 0).map
          fun ic => { ic.2 with number := ic.1 }) := by
    simp [processedBook, Book.process_chapters, Book.chapters_seq, List.enum]
  have hnum : (processedBook pd first rest).chapters_seq.map (fun c => c.number)
      = List.range' 0 (2 + rest.length) := by
    rw [hseq, numbered_map_number]
    have hlen : (mkBook pd first rest).chapters_seq.length = 2 + rest.length := by
      simp [mkBook, Book.chapters_seq]
      omega
    rw [hlen]
  have hcomp : (fun c : ChapterData => c.number + 1)
      = (fun k => k + 1) ∘ (fun c : ChapterData => c.number) := rfl
  have hnum1 : ((processedBook pd first rest).chapters_seq.map fun c => c.number + 1)
      = (List.range (2 + rest.length)).map (fun k => k + 1) := by
    rw [hcomp, ← List.map_map, hnum, List.range_eq_range']
  refine ⟨ncxPlayOrders_eq _, hnum1, ?_, ?_, ?_⟩
  · rw [hnum1]
    refine (List.chain'_map fun k => k + 1).mpr ?_
    exact ((List.pairwise_lt_range _).chain').imp fun a b h => Nat.add_lt_add_right h 1
  · rw [hnum1, show 2 + rest.length = rest.length + 2 from Nat.add_comm 2 rest.length,
        List.range_eq_range', List.range'_succ]
    rfl
  · rw [hseq]
    simp [mkBook, Book.chapters_seq, List.enumFrom]

/-- C8: the chapter document built from the title Test & Title and the
content node p hello serializes its title and h1 texts with the ampersand
escaped, its body holds the h1 followed by a copy of the p node that
serializes identically to the source, and the copy's object identities are
disjoint from the source node's, so the copy is not aliased to the
source. -/
theorem C8_chapter_roundtrip :
    (findByName "title" c8doc).map (fun n => serializeBNodeList (bchildren n))
        = some "Test &amp; Title"
    ∧ (findByName "h1" c8doc).map (fun n => serializeBNodeList (bchildren n))
        = some "Test &amp; Title"
    ∧ (findByName "body" c8doc).map serializeBNode
        = some "<body><h1>Test &amp; Title</h1><p>hello</p></body>"
    ∧ (findByName "p" c8doc).map serializeBNode = some (serializeBNode c8src)
    ∧ serializeBNode c8src = "<p>hello</p>"
    ∧ (findByName "p" c8doc).map bnodeIds = some [108, 109]
    ∧ bnodeIds c8src = [0, 1]
    ∧ (∀ i ∈ ([108, 109] : List Nat), i ∉ ([0, 1] : List Nat)) := by
  decide

/-- C9: for every title of ASCII characters, the domain on which the
modelled word-character class is exactly Python's, a chapter's file path is
the fixed format joining Text/chapter_, the ordinal zero-padded to three
digits, an underscore, the title with every non-word character replaced by
an underscore, and .xhtml; the path is a pure function of the ordinal and
the title, so equal inputs always yield equal filenames. -/
theorem C9_chapter_path (n : Nat) (t : String) (_ht : asciiOnly t) :
    Chapter.path n t
      = "Text/chapter_" ++ zeroPad3 (Nat.repr n) ++ "_"
        ++ String.mk (t.data.map fun c => if pythonWordChar c then c else '_') ++ ".xhtml"
    ∧ (∀ n' t', n = n' → t = t' → Chapter.path n t = Chapter.path n' t') := by
  constructor
  · have hmap : ∀ l : List Char,
        reSubNonWordUnderscore l = l.map fun c => if pythonWordChar c then c else '_' := by
      intro l
      induction l with
      | nil => rfl
      | cons c cs ih => simp [reSubNonWordUnderscore, ih]
    simp [Chapter.path, hmap]
  · intro n' t' hn ht'
    rw [hn, ht']

/-- C9, witness: the ASCII title Test & Title at ordinal 12. -/
theorem C9_chapter_path_witness :
    asciiOnly "Test & Title"
    ∧ Chapter.path 12 "Test & Title" = Chapter.path 12 "Test & Title"
    ∧ Chapter.path 12 "Test & Title" = "Text/chapter_012_Test___Title.xhtml" :=
  ⟨by decide,
   (C9_chapter_path 12 "Test & Title" (by decide)).2 12 "Test & Title" rfl rfl,
   by decide⟩

/-- C10: indexing a book at any negative integer first materializes the
whole chapter sequence (the loop condition max_index below zero never
becomes false) and then, the forward chain exhausted, raises IndexError;
negative indexing never returns a chapter. -/
theorem C10_negative_index (b : Book) (i : Int) (h : i < 0) :
    (b.getitem i).2 = none
    ∧ (b.getitem i).1._chapters = b._chapters ++ b.remaining
    ∧ (b.getitem i).1.remaining = [] := by
  have hnle : ¬ (0 : Int) ≤ i := not_le.mpr h
  have haux : ∀ (rem chs : List ChapterData),
      getitemAux i rem chs = (chs ++ rem, [], false) := by
    intro rem
    induction rem with
    | nil => intro chs; simp [getitemAux, hnle]
    | cons c rest ih =>
      intro chs
      rw [getitemAux]
      simp only [hnle, false_and, if_false]
      rw [ih (chs ++ [c])]
      simp
  simp [Book.getitem, haux b.remaining b._chapters]

/-- C10, witness: indexing a concrete two-source-chapter book at minus one
raises IndexError with the chain fully materialized. -/
theorem C10_negative_index_witness :
    (c10book.getitem (-1)).2 = none
    ∧ (c10book.getitem (-1)).1._chapters = c10book._chapters ++ c10book.remaining
    ∧ (c10book.getitem (-1)).1.remaining = [] :=
  C10_negative_index c10book (-1) (by decide)

end EpubModel
